import Mathlib

/-!
Verification of the discretisedfield core (Mesh and Field) against its
natural-language specification.  The repository ships tutorial notebooks
that exercise the core; the core itself (the `discretisedfield` Python
module) is modelled here from the specification, using exact rational
arithmetic in place of floating point.  Concrete outputs recorded in the
notebooks (`docs/ipynb/analysing_field.ipynb`,
`docs/ipynb/setting_fd_field.ipynb`) are reproduced as theorems.
-/

/-- A real 3-coordinate, one rational per axis. -/
abbrev Vec3 := Fin 3 → ℚ

/-- An integer cell-index triple. -/
abbrev Idx3 := Fin 3 → ℤ

/-- Modelled from the spec: the error taxonomy of §7 (the `discretisedfield`
module raising `OutOfDomainError`, `IndexError`, `TypeError`, `ValueError`
is not under `src/`). -/
inductive DFError where
  | outOfDomainError
  | indexError
  | typeError
  | valueError
deriving DecidableEq, Repr

instance {ε α : Type} [DecidableEq ε] [DecidableEq α] : DecidableEq (Except ε α)
  | .error e, .error f => decidable_of_iff (e = f) ⟨congrArg Except.error, Except.error.inj⟩
  | .error _, .ok _ => Decidable.isFalse fun h => Except.noConfusion h
  | .ok _, .error _ => Decidable.isFalse fun h => Except.noConfusion h
  | .ok a, .ok b => decidable_of_iff (a = b) ⟨congrArg Except.ok, Except.ok.inj⟩

namespace DF

/-- Modelled from the spec: a Mesh owns two bounding corner points and a
cell size (§3); derived quantities are functions of these. -/
structure Mesh where
  p1 : Vec3
  p2 : Vec3
  cell : Vec3
deriving DecidableEq

/-- Modelled from the spec: per-axis minimum corner, `min(p1[a], p2[a])`. -/
def Mesh.pmin (m : Mesh) (a : Fin 3) : ℚ := min (m.p1 a) (m.p2 a)

/-- Modelled from the spec: per-axis maximum corner, `max(p1[a], p2[a])`. -/
def Mesh.pmax (m : Mesh) (a : Fin 3) : ℚ := max (m.p1 a) (m.p2 a)

/-- Modelled from the spec: axis lengths `l = pmax - pmin`. -/
def Mesh.l (m : Mesh) (a : Fin 3) : ℚ := m.pmax a - m.pmin a

/-- Modelled from the spec: integer cell counts per axis,
`round(l[a] / cell[a])`. -/
def Mesh.n (m : Mesh) (a : Fin 3) : ℕ := (round (m.l a / m.cell a)).toNat

/-- Modelled from the spec: the construction invariant (§3): corners differ
on each axis, cell sizes are positive, and each axis length is an exact
integer multiple of the cell size (the floating-point tolerance of the
implementation is exact equality in this rational model). -/
def Mesh.valid (m : Mesh) : Prop :=
  ∀ a, m.p1 a ≠ m.p2 a ∧ 0 < m.cell a ∧ m.l a = (m.n a : ℚ) * m.cell a

instance (m : Mesh) : Decidable m.valid :=
  Fintype.decidableForallFintype

/-- Modelled from the spec: Mesh construction; violation of the invariant is
a construction error, rendered here as `none`. -/
def Mesh.make (q1 q2 c : Vec3) : Option Mesh :=
  let m : Mesh := ⟨q1, q2, c⟩
  if m.valid then some m else none

/-- Modelled from the spec: domain membership (§4.1): a point is in-domain
iff each axis coordinate lies in `[pmin[a], pmax[a]]`. -/
def Mesh.inDomain (m : Mesh) (p : Vec3) : Prop :=
  ∀ a, m.pmin a ≤ p a ∧ p a ≤ m.pmax a

instance (m : Mesh) (p : Vec3) : Decidable (m.inDomain p) :=
  Fintype.decidableForallFintype

/-- Modelled from the spec: `point2index` (§4.1): per axis
`idx = floor((p[a] - pmin[a]) / cell[a])`, clamped to the last valid cell so
that a point on the upper face maps to `n[a] - 1`; raises
`OutOfDomainError` when the point is outside the bounding cuboid. -/
def Mesh.point2index (m : Mesh) (p : Vec3) : Except DFError Idx3 :=
  if m.inDomain p then
    Except.ok (fun a => min ⌊(p a - m.pmin a) / m.cell a⌋ ((m.n a : ℤ) - 1))
  else Except.error DFError.outOfDomainError

/-- Modelled from the spec: the centre coordinate of the cell with (integer)
index `idx`: `pmin[a] + (idx[a] + 0.5) * cell[a]` (§4.1). -/
def Mesh.cellCentre (m : Mesh) (idx : Idx3) : Vec3 :=
  fun a => m.pmin a + ((idx a : ℚ) + 1/2) * m.cell a

/-- Modelled from the spec: `index2point` (§4.1): returns the centre of the
indexed cell, raising `IndexError` when any index component is outside
`[0, n[a])`. -/
def Mesh.index2point (m : Mesh) (idx : Idx3) : Except DFError Vec3 :=
  if ∀ a, 0 ≤ idx a ∧ idx a < (m.n a : ℤ) then
    Except.ok (m.cellCentre idx)
  else Except.error DFError.indexError

/-- Modelled from the spec: a Field owns a dense buffer of shape
`(n_x, n_y, n_z, dim)` over a Mesh (§3); the buffer is a total function here,
read only at in-shape indices. -/
structure Field where
  mesh : Mesh
  dim : ℕ
  array : ℕ → ℕ → ℕ → ℕ → ℚ

/-- Modelled from the spec: Field construction with no `value` argument
builds a zero-filled array (§4.2). -/
def Field.make (m : Mesh) (d : ℕ) : Field :=
  ⟨m, d, fun _ _ _ _ => 0⟩

/-- Modelled from the spec: the three recognized shapes of a value-assignment
input (§4.2): a single number, a sequence of numbers, or a callable taking a
3-coordinate and returning a sequence of numbers. -/
inductive PyVal where
  | num (q : ℚ)
  | vec (vs : List ℚ)
  | fn (g : Vec3 → List ℚ)

/-- The centre of the cell at natural-number index `(i, j, k)`; this is the
coordinate `index2point` would return for that cell. -/
def Mesh.natCentre (m : Mesh) (i j k : ℕ) : Vec3 :=
  m.cellCentre ![(i : ℤ), (j : ℤ), (k : ℤ)]

/-- Modelled from the spec: the value setter `field.value = v` (§4.2).
A single number is broadcast to every component of every cell; a sequence of
exactly `dim` numbers becomes the vector of every cell (any other length is
a `TypeError`); a callable is evaluated at the centre of every cell and must
return a sequence of length `dim` for every cell (`ValueError` otherwise). -/
def Field.setValue (f : Field) (v : PyVal) : Except DFError Field :=
  match v with
  | .num q => Except.ok { f with array := fun _ _ _ _ => q }
  | .vec vs =>
      if vs.length = f.dim then
        Except.ok { f with array := fun _ _ _ c => vs.getD c 0 }
      else Except.error DFError.typeError
  | .fn g =>
      if ∀ i < f.mesh.n 0, ∀ j < f.mesh.n 1, ∀ k < f.mesh.n 2,
          (g (f.mesh.natCentre i j k)).length = f.dim then
        Except.ok { f with array := fun i j k c => (g (f.mesh.natCentre i j k)).getD c 0 }
      else Except.error DFError.valueError

/-- Modelled from the spec: `field.average` (§4.2): per component `c`, the
arithmetic mean `(1/N) * sum over all cells of array[i,j,k,c]` with
`N = n_x*n_y*n_z`, returned as the list of the `dim` component means. -/
def Field.average (f : Field) : List ℚ :=
  let nx := f.mesh.n 0
  let ny := f.mesh.n 1
  let nz := f.mesh.n 2
  (List.range f.dim).map fun c =>
    (((List.range nx).map fun i =>
      ((List.range ny).map fun j =>
        ((List.range nz).map fun k => f.array i j k c).sum).sum).sum) / ((nx * ny * nz : ℕ) : ℚ)

/-- Modelled from the spec: sampling `field(point)` (§4.2): converts the
point to a cell index via `point2index` (propagating `OutOfDomainError`) and
returns that cell's stored vector verbatim, with no interpolation. -/
def Field.sample (f : Field) (p : Vec3) : Except DFError (List ℚ) :=
  (f.mesh.point2index p).map fun idx =>
    (List.range f.dim).map fun c => f.array (idx 0).toNat (idx 1).toNat (idx 2).toNat c

/-- The name of the `value` attribute, the one attribute of a Field whose
assignment runs the value-assignment protocol. -/
def attrValue : String := "value"

/-- The name of the attribute `f` assigned in the analysing-field tutorial
(`field.f = value`). -/
def attrF : String := "f"

/-- Modelled from the spec and Python attribute semantics: a Field object as
the notebooks see it — the core Field plus the instance dictionary of any
other attributes assigned onto the object. -/
structure FieldObj where
  core : Field
  attrs : List (String × PyVal)

/-- Modelled from the spec and Python attribute semantics: assigning to
attribute `name` of a Field object runs the value-assignment protocol when
`name` is `value`, and otherwise merely records the binding in the instance
dictionary, leaving the array untouched. -/
def FieldObj.setattr (f : FieldObj) (name : String) (v : PyVal) : Except DFError FieldObj :=
  if name = attrValue then
    (f.core.setValue v).map fun core' => { f with core := core' }
  else Except.ok { f with attrs := (name, v) :: f.attrs }

/-- The mesh of the analysing-field tutorial: `p1=(1,1,1)`, `p2=(10,6,9)`,
`cell=(1,1,2)`. -/
def exampleMesh : Mesh := ⟨![1, 1, 1], ![10, 6, 9], ![1, 1, 2]⟩

/-- The mesh of the setting-field tutorial: `p1=(1,1,1)`, `p2=(10,6,9)`,
`cell=(1,1,1)`. -/
def settingMesh : Mesh := ⟨![1, 1, 1], ![10, 6, 9], ![1, 1, 1]⟩

/-- The position function of both tutorials:
`f(x, y, z) = (2x, 2y + x, x + z)`. -/
def fTut : Vec3 → List ℚ :=
  fun p => [2 * p 0, 2 * p 1 + p 0, p 0 + p 2]

/-- The freshly constructed dim-3 Field object of the analysing-field
tutorial, before any assignment. -/
def freshObj : FieldObj := ⟨Field.make exampleMesh 3, []⟩

/-! Helper lemmas about valid meshes. -/

theorem Mesh.cell_pos (m : Mesh) (hm : m.valid) (a : Fin 3) : 0 < m.cell a :=
  (hm a).2.1

theorem Mesh.l_eq_n_mul_cell (m : Mesh) (hm : m.valid) (a : Fin 3) :
    m.l a = (m.n a : ℚ) * m.cell a :=
  (hm a).2.2

theorem Mesh.pmax_eq (m : Mesh) (hm : m.valid) (a : Fin 3) :
    m.pmax a = m.pmin a + (m.n a : ℚ) * m.cell a := by
  have h := m.l_eq_n_mul_cell hm a
  unfold Mesh.l at h
  linarith

theorem Mesh.one_le_n (m : Mesh) (hm : m.valid) (a : Fin 3) : 1 ≤ m.n a := by
  by_contra hn
  have hn0 : m.n a = 0 := by omega
  have hmul := m.l_eq_n_mul_cell hm a
  rw [hn0] at hmul
  unfold Mesh.l at hmul
  have hlt : m.pmin a < m.pmax a := min_lt_max.mpr (hm a).1
  simp only [Nat.cast_zero, zero_mul] at hmul
  linarith

theorem Mesh.point2index_of_inDomain (m : Mesh) (p : Vec3) (h : m.inDomain p) :
    m.point2index p =
      Except.ok (fun a => min ⌊(p a - m.pmin a) / m.cell a⌋ ((m.n a : ℤ) - 1)) := by
  simp only [Mesh.point2index, if_pos h]

theorem Mesh.point2index_of_not_inDomain (m : Mesh) (p : Vec3) (h : ¬ m.inDomain p) :
    m.point2index p = Except.error DFError.outOfDomainError := by
  simp only [Mesh.point2index, if_neg h]

theorem Mesh.p2_inDomain (m : Mesh) : m.inDomain m.p2 :=
  fun a => ⟨min_le_right (m.p1 a) (m.p2 a), le_max_right (m.p1 a) (m.p2 a)⟩

theorem Mesh.make_some (q1 q2 c : Vec3) (m : Mesh) (h : Mesh.make q1 q2 c = some m) :
    m.valid ∧ m = Mesh.mk q1 q2 c := by
  unfold Mesh.make at h
  by_cases hv : (Mesh.mk q1 q2 c).valid
  · rw [if_pos hv] at h
    cases h
    exact ⟨hv, rfl⟩
  · rw [if_neg hv] at h
    cases h

section
attribute [local semireducible] Rat.add Rat.sub Rat.mul Rat.inv

/-- C2: for every valid mesh and every integer index `(i,j,k)` with each
component in `[0, n[a])`, composing `index2point` with `point2index` is the
identity: the centre of the indexed cell maps back to the same index. -/
theorem claim2_point2index_index2point_roundtrip (m : Mesh) (hm : m.valid) (idx : Idx3)
    (h : ∀ a, 0 ≤ idx a ∧ idx a < (m.n a : ℤ)) :
    (m.index2point idx).bind m.point2index = Except.ok idx := by
  have hok : m.index2point idx = Except.ok (m.cellCentre idx) := by
    simp only [Mesh.index2point, if_pos h]
  rw [hok]
  show m.point2index (m.cellCentre idx) = Except.ok idx
  have hdom : m.inDomain (m.cellCentre idx) := by
    intro a
    obtain ⟨h0, h1⟩ := h a
    have hc := m.cell_pos hm a
    have hx0 : (0:ℚ) ≤ (idx a : ℚ) := by exact_mod_cast h0
    have hx1 : (idx a : ℚ) + 1 ≤ (m.n a : ℚ) := by exact_mod_cast h1
    constructor
    · unfold Mesh.cellCentre
      nlinarith
    · unfold Mesh.cellCentre
      rw [m.pmax_eq hm a]
      nlinarith
  rw [m.point2index_of_inDomain _ hdom]
  congr 1
  funext a
  obtain ⟨h0, h1⟩ := h a
  have hne : m.cell a ≠ 0 := ne_of_gt (m.cell_pos hm a)
  have hdiv : (m.cellCentre idx a - m.pmin a) / m.cell a = (idx a : ℚ) + 1/2 := by
    unfold Mesh.cellCentre
    have hsub : m.pmin a + ((idx a : ℚ) + 1/2) * m.cell a - m.pmin a
        = ((idx a : ℚ) + 1/2) * m.cell a := by ring
    rw [hsub, mul_div_cancel_right₀ _ hne]
  rw [hdiv]
  have hhalf : ⌊(1:ℚ)/2⌋ = 0 := by
    rw [Int.floor_eq_zero_iff]
    constructor <;> norm_num
  have hfl : ⌊(idx a : ℚ) + 1/2⌋ = idx a := by
    rw [Int.floor_int_add, hhalf, add_zero]
  rw [hfl]
  exact min_eq_left (by omega)

/-- C2 witness: the roundtrip at the tutorial mesh and index `(4,4,0)`. -/
theorem claim2_witness :
    exampleMesh.valid ∧
    (∀ a, 0 ≤ (![4, 4, 0] : Idx3) a ∧ (![4, 4, 0] : Idx3) a < (exampleMesh.n a : ℤ)) ∧
    (exampleMesh.index2point ![4, 4, 0]).bind exampleMesh.point2index
      = Except.ok ![4, 4, 0] :=
  ⟨by decide, by decide,
    claim2_point2index_index2point_roundtrip exampleMesh (by decide) ![4, 4, 0] (by decide)⟩

/-- C5: `index2point` returns the centre of the indexed cell,
`pmin[a] + (idx[a] + 0.5) * cell[a]` per axis, when every index component is
in `[0, n[a])`, and raises `IndexError` when some component is outside. -/
theorem claim5_index2point_centre (m : Mesh) (idx : Idx3) :
    ((∀ a, 0 ≤ idx a ∧ idx a < (m.n a : ℤ)) →
      m.index2point idx
        = Except.ok fun a => m.pmin a + ((idx a : ℚ) + 1/2) * m.cell a) ∧
    ((∃ a, idx a < 0 ∨ (m.n a : ℤ) ≤ idx a) →
      m.index2point idx = Except.error DFError.indexError) := by
  constructor
  · intro h
    simp only [Mesh.index2point, if_pos h]
    rfl
  · intro hout
    have hneg : ¬ ∀ a, 0 ≤ idx a ∧ idx a < (m.n a : ℤ) := by
      obtain ⟨a, ha⟩ := hout
      intro hall
      obtain ⟨h0, h1⟩ := hall a
      omega
    simp only [Mesh.index2point, if_neg hneg]

/-- C5 witness: the tutorial mesh evaluation `index2point((4,4,0)) =
(5.5, 5.5, 2.0)` recorded in the analysing-field notebook. -/
theorem claim5_witness :
    (∀ a, 0 ≤ (![4, 4, 0] : Idx3) a ∧ (![4, 4, 0] : Idx3) a < (exampleMesh.n a : ℤ)) ∧
    exampleMesh.index2point ![4, 4, 0]
      = Except.ok fun a => exampleMesh.pmin a + (((![4, 4, 0] : Idx3) a : ℚ) + 1/2) * exampleMesh.cell a :=
  ⟨by decide, (claim5_index2point_centre exampleMesh ![4, 4, 0]).1 (by decide)⟩

/-- C4: for an in-domain point, `point2index` computes per axis
`floor((p[a] - pmin[a]) / cell[a])` clamped to the last valid cell, and the
resulting index is always in range; in particular the upper corner `p2`
(when `p1 ≤ p2` componentwise) maps to `(n_x-1, n_y-1, n_z-1)`. -/
theorem claim4_point2index_floor_clamp (m : Mesh) (hm : m.valid) :
    (∀ p, m.inDomain p → ∃ idx, m.point2index p = Except.ok idx ∧
      (∀ a, idx a = min ⌊(p a - m.pmin a) / m.cell a⌋ ((m.n a : ℤ) - 1)) ∧
      ∀ a, 0 ≤ idx a ∧ idx a < (m.n a : ℤ)) ∧
    ((∀ a, m.p1 a ≤ m.p2 a) →
      m.point2index m.p2 = Except.ok fun a => (m.n a : ℤ) - 1) := by
  constructor
  · intro p hd
    refine ⟨_, m.point2index_of_inDomain p hd, fun a => rfl, fun a => ?_⟩
    have hn1 := m.one_le_n hm a
    have hfl0 : 0 ≤ ⌊(p a - m.pmin a) / m.cell a⌋ :=
      Int.floor_nonneg.mpr (div_nonneg (by linarith [(hd a).1]) (le_of_lt (m.cell_pos hm a)))
    constructor
    · exact le_min hfl0 (by omega)
    · exact lt_of_le_of_lt (min_le_right _ _) (by omega)
  · intro hp
    rw [m.point2index_of_inDomain _ m.p2_inDomain]
    congr 1
    funext a
    have hne : m.cell a ≠ 0 := ne_of_gt (m.cell_pos hm a)
    have hsub : m.p2 a - m.pmin a = m.l a := by
      unfold Mesh.l Mesh.pmin Mesh.pmax
      rw [min_eq_left (hp a), max_eq_right (hp a)]
    rw [hsub, m.l_eq_n_mul_cell hm a, mul_div_cancel_right₀ _ hne]
    have hfl : ⌊((m.n a : ℕ) : ℚ)⌋ = (m.n a : ℤ) := Int.floor_natCast (m.n a)
    rw [hfl]
    exact min_eq_right (by omega)

/-- C4 witness: on the tutorial mesh, the upper corner `p2 = (10,6,9)` maps
to the last cell `(8,4,3)`. -/
theorem claim4_witness :
    exampleMesh.valid ∧ (∀ a, exampleMesh.p1 a ≤ exampleMesh.p2 a) ∧
    exampleMesh.point2index exampleMesh.p2
      = Except.ok fun a => (exampleMesh.n a : ℤ) - 1 :=
  ⟨by decide, by decide,
    (claim4_point2index_floor_clamp exampleMesh (by decide)).2 (by decide)⟩

/-- C3: `point2index` raises `OutOfDomainError` exactly when some axis
coordinate lies outside `[pmin[a], pmax[a]]`, sampling propagates the same
error, and for in-domain points neither raises. -/
theorem claim3_out_of_domain_rejection (fld : Field) (p : Vec3) :
    (fld.mesh.point2index p = Except.error DFError.outOfDomainError ↔
      ∃ a, p a < fld.mesh.pmin a ∨ fld.mesh.pmax a < p a) ∧
    (fld.sample p = Except.error DFError.outOfDomainError ↔
      ∃ a, p a < fld.mesh.pmin a ∨ fld.mesh.pmax a < p a) ∧
    (fld.mesh.inDomain p →
      (∃ idx, fld.mesh.point2index p = Except.ok idx) ∧
      ∃ v, fld.sample p = Except.ok v) := by
  have hiff : (¬ fld.mesh.inDomain p) ↔
      ∃ a, p a < fld.mesh.pmin a ∨ fld.mesh.pmax a < p a := by
    simp only [Mesh.inDomain, not_forall, not_and_or, not_le]
  by_cases hd : fld.mesh.inDomain p
  · have hpt := fld.mesh.point2index_of_inDomain p hd
    have hnout : ¬ ∃ a, p a < fld.mesh.pmin a ∨ fld.mesh.pmax a < p a :=
      fun hex => hiff.mpr hex hd
    refine ⟨⟨fun hcon => ?_, fun hex => absurd hex hnout⟩,
            ⟨fun hcon => ?_, fun hex => absurd hex hnout⟩,
            fun _ => ⟨⟨_, hpt⟩, ⟨_, by rw [Field.sample, hpt]; rfl⟩⟩⟩
    · rw [hpt] at hcon
      exact Except.noConfusion hcon
    · rw [Field.sample, hpt] at hcon
      exact Except.noConfusion hcon
  · have hpt := fld.mesh.point2index_of_not_inDomain p hd
    refine ⟨⟨fun _ => hiff.mp hd, fun _ => hpt⟩,
            ⟨fun _ => hiff.mp hd, fun _ => ?_⟩,
            fun hdd => absurd hdd hd⟩
    rw [Field.sample, hpt]
    rfl

/-- C3 witness: the point `(0,0,0)` lies below `pmin = (1,1,1)` of the
tutorial mesh and is rejected by both `point2index` and sampling, while the
in-domain point `(5,5,5)` is accepted. -/
theorem claim3_witness :
    ((Field.make exampleMesh 3).mesh.point2index ![0, 0, 0]
        = Except.error DFError.outOfDomainError ↔
      ∃ a, (![0, 0, 0] : Vec3) a < (Field.make exampleMesh 3).mesh.pmin a ∨
        (Field.make exampleMesh 3).mesh.pmax a < (![0, 0, 0] : Vec3) a) ∧
    ((Field.make exampleMesh 3).mesh.inDomain ![5, 5, 5] →
      (∃ idx, (Field.make exampleMesh 3).mesh.point2index ![5, 5, 5] = Except.ok idx) ∧
      ∃ v, (Field.make exampleMesh 3).sample ![5, 5, 5] = Except.ok v) :=
  ⟨(claim3_out_of_domain_rejection (Field.make exampleMesh 3) ![0, 0, 0]).1,
   (claim3_out_of_domain_rejection (Field.make exampleMesh 3) ![5, 5, 5]).2.2⟩

/-- C6: any successfully constructed mesh has `l[a] = pmax[a] - pmin[a]`
and `n[a] = round(l[a] / cell[a])` on every axis; the tutorial mesh
`p1=(1,1,1)`, `p2=(10,6,9)`, `cell=(1,1,2)` constructs successfully with
`n = (9,5,4)` and `l = (9,5,8)`, as the notebook records. -/
theorem claim6_cell_count_lengths :
    (∀ q1 q2 c m, Mesh.make q1 q2 c = some m →
      ∀ a, m.l a = m.pmax a - m.pmin a ∧ (m.n a : ℤ) = round (m.l a / m.cell a)) ∧
    (Mesh.make ![1, 1, 1] ![10, 6, 9] ![1, 1, 2] = some exampleMesh ∧
      (∀ a, exampleMesh.n a = (![9, 5, 4] : Fin 3 → ℕ) a) ∧
      ∀ a, exampleMesh.l a = (![9, 5, 8] : Vec3) a) := by
  constructor
  · intro q1 q2 c m h a
    obtain ⟨hv, -⟩ := Mesh.make_some q1 q2 c m h
    refine ⟨rfl, ?_⟩
    have hne : m.cell a ≠ 0 := ne_of_gt (m.cell_pos hv a)
    have hdiv : m.l a / m.cell a = (m.n a : ℚ) := by
      rw [m.l_eq_n_mul_cell hv a, mul_div_cancel_right₀ _ hne]
    rw [hdiv]
    have : ((m.n a : ℤ) : ℚ) = ((m.n a : ℕ) : ℚ) := by push_cast; ring
    rw [← this, round_intCast]
  · exact ⟨by decide, by decide, by decide⟩

/-- C6 witness: the general equations applied to the tutorial mesh. -/
theorem claim6_witness :
    Mesh.make ![1, 1, 1] ![10, 6, 9] ![1, 1, 2] = some exampleMesh ∧
    ∀ a, exampleMesh.l a = exampleMesh.pmax a - exampleMesh.pmin a ∧
      (exampleMesh.n a : ℤ) = round (exampleMesh.l a / exampleMesh.cell a) :=
  ⟨by decide,
   claim6_cell_count_lengths.1 ![1, 1, 1] ![10, 6, 9] ![1, 1, 2] exampleMesh (by decide)⟩

/-- C7: a Field constructed without a value argument has every entry of its
array equal to zero. -/
theorem claim7_zero_initialization (m : Mesh) (d i j k c : ℕ) :
    (Field.make m d).array i j k c = 0 := rfl

/-- C8: assigning a sequence of exactly `dim` numbers sets component `c` of
every cell to element `c` of the input; in particular on the dim-3 tutorial
field, after `field.value = (1, -2, 3.5)` the average is `(1.0, -2.0, 3.5)`
exactly, as the setting-field notebook records. -/
theorem claim8_component_assignment :
    (∀ (fld : Field) (vs : List ℚ), vs.length = fld.dim →
      fld.setValue (PyVal.vec vs)
        = Except.ok { fld with array := fun _ _ _ c => vs.getD c 0 }) ∧
    ((Field.make settingMesh 3).setValue (PyVal.vec [1, -2, 7/2])).map Field.average
      = Except.ok [1, -2, 7/2] := by
  constructor
  · intro fld vs h
    simp only [Field.setValue, if_pos h]
  · decide

/-- C8 witness: the general tuple-assignment equation applied to the
tutorial field and the input `(1, -2, 3.5)`. -/
theorem claim8_witness :
    ([1, -2, 7/2] : List ℚ).length = (Field.make settingMesh 3).dim ∧
    (Field.make settingMesh 3).setValue (PyVal.vec [1, -2, 7/2])
      = Except.ok { Field.make settingMesh 3 with
          array := fun _ _ _ c => ([1, -2, 7/2] : List ℚ).getD c 0 } :=
  ⟨by decide, claim8_component_assignment.1 (Field.make settingMesh 3) [1, -2, 7/2] (by decide)⟩

/-- C9: on the mesh `p1=(1,1,1)`, `p2=(10,6,9)`, `cell=(1,1,1)`, assigning
`f(x,y,z) = (2x, 2y+x, x+z)` through the value protocol and sampling at
`(1.5, 2.5, 3.5)` returns `(3.0, 6.5, 5.0)`, the stored vector of the cell
containing the point; that cell is centred at `(1.5, 2.5, 3.5)` itself. -/
theorem claim9_function_assignment_sampling :
    ((Field.make settingMesh 3).setValue (PyVal.fn fTut)).bind
      (fun fl => fl.sample ![3/2, 5/2, 7/2]) = Except.ok [3, 13/2, 5] ∧
    fTut ![3/2, 5/2, 7/2] = [3, 13/2, 5] ∧
    settingMesh.point2index ![3/2, 5/2, 7/2] = Except.ok ![0, 1, 2] ∧
    settingMesh.index2point ![0, 1, 2] = Except.ok ![3/2, 5/2, 7/2] := by
  refine ⟨by decide, by decide, by decide, by decide⟩

/-- C1 counterexample: on the tutorial mesh `p1=(1,1,1)`, `p2=(10,6,9)`,
`cell=(1,1,2)`, assigning `f(x,y,z) = (2x, 2y+x, x+z)` through the actual
value-assignment protocol yields average `(11, 12.5, 10.5)`, not
`(0.0, 0.0, 0.0)`. -/
theorem claim1_value_protocol_average_cex :
    ((Field.make exampleMesh 3).setValue (PyVal.fn fTut)).map Field.average
      = Except.ok [11, 25/2, 21/2] ∧
    ((Field.make exampleMesh 3).setValue (PyVal.fn fTut)).map Field.average
      ≠ Except.ok [0, 0, 0] :=
  ⟨by decide, by decide⟩

/-- C1 amended: the analysing-field notebook assigns the function to the
plain attribute `field.f`, which does not invoke the value-assignment
protocol; the array therefore stays zero and `field.average` equals
`(0.0, 0.0, 0.0)`, exactly as the notebook records. -/
theorem claim1_attr_assignment_average :
    (freshObj.setattr attrF (PyVal.fn fTut)).map (fun o => o.core.average)
      = Except.ok [0, 0, 0] := by decide

/-- C10: assigning to a Field attribute other than `value` leaves the core
untouched: the array, the average and all sampling results are unchanged;
on the freshly constructed dim-3 tutorial field, average and the sample at
`(5,5,5)` still return `(0.0, 0.0, 0.0)` afterwards. -/
theorem claim10_non_value_attribute_frame (fobj : FieldObj) (nm : String) (v : PyVal)
    (h : nm ≠ attrValue) :
    fobj.setattr nm v = Except.ok { fobj with attrs := (nm, v) :: fobj.attrs } ∧
    (∀ fobj', fobj.setattr nm v = Except.ok fobj' →
      fobj'.core.array = fobj.core.array ∧ fobj'.core.average = fobj.core.average ∧
      ∀ p, fobj'.core.sample p = fobj.core.sample p) ∧
    ((freshObj.setattr attrF (PyVal.fn fTut)).map
        (fun o => (o.core.average, o.core.sample ![5, 5, 5]))
      = Except.ok ([0, 0, 0], Except.ok [0, 0, 0])) := by
  have hset : fobj.setattr nm v = Except.ok { fobj with attrs := (nm, v) :: fobj.attrs } := by
    simp only [FieldObj.setattr, if_neg h]
  refine ⟨hset, fun fobj' heq => ?_, by decide⟩
  rw [hset] at heq
  have heq' := Except.ok.inj heq
  rw [← heq']
  exact ⟨rfl, rfl, fun p => rfl⟩

/-- C10 witness: the frame property applied to the tutorial assignment
`field.f = value`. -/
theorem claim10_witness :
    attrF ≠ attrValue ∧
    freshObj.setattr attrF (PyVal.fn fTut)
      = Except.ok { freshObj with attrs := (attrF, PyVal.fn fTut) :: freshObj.attrs } :=
  ⟨by decide, (claim10_non_value_attribute_frame freshObj attrF (PyVal.fn fTut) (by decide)).1⟩

end

end DF
